import Mathlib

/-!
Verification development for the docling-api credit-metering service.

The definitions below are a shallow embedding of the Python source:
  * `api/models/db_models.py`  — `APIKey`, `UsageRecord`, `StripeEvent` rows
    and the methods `create_new`, `validate_key`, `deduct_credits`,
    `add_credits`, `hash_key`.
  * `api/services/key_service.py` — `APIKeyService` operations over an
    async SQLAlchemy session; the session is modelled by explicit state
    passing (`KeySession` for the in-memory ORM row plus pending usage
    rows, `DB` for the whole store).
  * `api/services/stripe_service.py` — webhook ingestion and the event
    handlers; the Stripe SDK's `Webhook.construct_event` is a function
    parameter since its cryptography is external to this repository.
  * `api/routes/*.py` and `api/auth.py` — the HTTP layer, modelled as
    functions from request data to a status/result plus the new store.

Machine integers are modelled by `Int` (Python ints are unbounded).
Database-assigned columns (autoincrement `id`, `created_at` defaults) are
taken as explicit inputs or omitted where no claim depends on them;
timestamps `datetime.utcnow()` are modelled by an explicit `now : Nat`
clock argument.  Randomly generated identifiers (`generate_key_id`,
`generate_key_secret`) are taken as inputs.
-/

/-- One row of the `api_keys` table (`db_models.APIKey`). -/
structure APIKey where
  id : Int
  key_id : String
  key_hash : String
  name : String
  tier : String
  credits : Int
  credits_used : Int
  documents_processed : Int
  pages_processed : Int
  is_active : Bool
  last_used : Option Nat
  stripe_customer_id : Option String
  stripe_subscription_id : Option String
deriving DecidableEq

/-- One row of the `usage_records` table (`db_models.UsageRecord`); the
database-managed `id`, `created_at` and the always-`None` `error_message`
column are omitted. -/
structure UsageRecord where
  api_key_id : Int
  request_id : String
  endpoint : String
  documents : Int
  pages : Int
  credits : Int
  processing_time_ms : Int
  status : String
deriving DecidableEq

/-- One row of the `stripe_events` dedup table (`db_models.StripeEvent`). -/
structure StripeEvent where
  event_id : String
  event_type : String
deriving DecidableEq

/-- The persistent store: the three durable collections. -/
structure DB where
  api_keys : List APIKey
  usage_records : List UsageRecord
  stripe_events : List StripeEvent
deriving DecidableEq

/-- `db_models.APIKey.create_new`.  `id` is the row id the database will
assign on flush; `key_id`/`key_secret` stand for the freshly generated
random identifiers; `hash_key` stands for `hashlib.sha256(...).hexdigest()`. -/
def APIKey.create_new (hash_key : String → String) (id : Int)
    (key_id key_secret : String) (name : String) (tier : String)
    (credits : Int) : APIKey × String :=
  let full_key := key_id ++ "_" ++ key_secret
  ({ id := id
     key_id := key_id
     key_hash := hash_key full_key
     name := name
     tier := tier
     credits := credits
     credits_used := 0
     documents_processed := 0
     pages_processed := 0
     is_active := true
     last_used := none
     stripe_customer_id := none
     stripe_subscription_id := none }, full_key)

/-- `db_models.APIKey.validate_key`: compare the stored hash. -/
def APIKey.validate_key (hash_key : String → String) (k : APIKey)
    (full_key : String) : Bool :=
  k.key_hash == hash_key full_key

/-- `db_models.APIKey.deduct_credits`: check-then-act on the in-memory row;
returns the success flag and the updated row. -/
def APIKey.deduct_credits (k : APIKey) (credits documents pages : Int)
    (now : Nat) : Bool × APIKey :=
  if k.credits < credits then (false, k)
  else
    (true,
      { k with
        credits := k.credits - credits
        credits_used := k.credits_used + credits
        documents_processed := k.documents_processed + documents
        pages_processed := k.pages_processed + pages
        last_used := some now })

/-- `db_models.APIKey.add_credits`. -/
def APIKey.add_credits (k : APIKey) (credits : Int) : APIKey :=
  { k with credits := k.credits + credits }

/-- The state seen by `APIKeyService.deduct_credits`: the loaded ORM row and
the usage rows of the session's store. -/
structure KeySession where
  key : APIKey
  usage_records : List UsageRecord
deriving DecidableEq

/-- `key_service.APIKeyService.deduct_credits`: deduct on the row, and on
success insert the usage row. -/
def APIKeyService.deduct_credits (s : KeySession)
    (credits documents pages : Int) (request_id endpoint : String)
    (processing_time_ms : Int) (now : Nat) : Bool × KeySession :=
  match APIKey.deduct_credits s.key credits documents pages now with
  | (false, _) => (false, s)
  | (true, k) =>
    (true,
      { key := k
        usage_records := s.usage_records ++
          [{ api_key_id := k.id
             request_id := request_id
             endpoint := endpoint
             documents := documents
             pages := pages
             credits := credits
             processing_time_ms := processing_time_ms
             status := "success" }] })

/-- `key_service.APIKeyService.get_by_id`: unique-index lookup by `key_id`. -/
def APIKeyService.get_by_id (db : DB) (key_id : String) : Option APIKey :=
  db.api_keys.find? (fun k => k.key_id == key_id)

/-- `key_service.APIKeyService.get_by_full_key`: lookup by digest among
active keys. -/
def APIKeyService.get_by_full_key (hash_key : String → String) (db : DB)
    (full_key : String) : Option APIKey :=
  db.api_keys.find? (fun k => k.key_hash == hash_key full_key && k.is_active)

/-- Apply `f` to the row(s) with the given `key_id` (the ORM mutation of a
row fetched by unique index; `key_id` is unique in the schema). -/
def DB.updateKey (db : DB) (key_id : String) (f : APIKey → APIKey) : DB :=
  { db with
    api_keys := db.api_keys.map (fun k => if k.key_id == key_id then f k else k) }

/-- `key_service.APIKeyService.validate_key`: resolve by digest and update
`last_used` on success. -/
def APIKeyService.validate_key (hash_key : String → String) (db : DB)
    (full_key : String) (now : Nat) : Option APIKey × DB :=
  match APIKeyService.get_by_full_key hash_key db full_key with
  | none => (none, db)
  | some k =>
    (some { k with last_used := some now },
     db.updateKey k.key_id (fun x => { x with last_used := some now }))

/-- `key_service.APIKeyService.create_key`: build the row, optionally attach
the Stripe customer, and insert it. -/
def APIKeyService.create_key (hash_key : String → String) (db : DB)
    (id : Int) (key_id key_secret : String) (name : String) (tier : String)
    (credits : Int) (stripe_customer_id : Option String) :
    (APIKey × String) × DB :=
  let (api_key, full_key) :=
    APIKey.create_new hash_key id key_id key_secret name tier credits
  let api_key :=
    match stripe_customer_id with
    | some c => { api_key with stripe_customer_id := some c }
    | none => api_key
  ((api_key, full_key), { db with api_keys := db.api_keys ++ [api_key] })

/-- `key_service.APIKeyService.add_credits`. -/
def APIKeyService.add_credits (db : DB) (key_id : String) (credits : Int) :
    Option APIKey × DB :=
  match APIKeyService.get_by_id db key_id with
  | none => (none, db)
  | some k =>
    (some (k.add_credits credits), db.updateKey key_id (·.add_credits credits))

/-- `key_service.APIKeyService.deactivate_key`. -/
def APIKeyService.deactivate_key (db : DB) (key_id : String) : Bool × DB :=
  match APIKeyService.get_by_id db key_id with
  | none => (false, db)
  | some _ =>
    (true, db.updateKey key_id (fun x => { x with is_active := false }))

/-- `key_service.APIKeyService.get_by_stripe_customer`. -/
def APIKeyService.get_by_stripe_customer (db : DB)
    (stripe_customer_id : String) : Option APIKey :=
  db.api_keys.find? (fun k => k.stripe_customer_id == some stripe_customer_id)

/-- `key_service.APIKeyService.update_stripe_info`: each field is written
only when the supplied argument is not `None`. -/
def APIKeyService.update_stripe_info (db : DB) (key_id : String)
    (stripe_customer_id stripe_subscription_id : Option String) : DB :=
  db.updateKey key_id (fun x =>
    let x1 :=
      match stripe_customer_id with
      | some c => { x with stripe_customer_id := some c }
      | none => x
    match stripe_subscription_id with
    | some s => { x1 with stripe_subscription_id := some s }
    | none => x1)

/-- The fields of a constructed Stripe event that the service reads:
`event.id`, `event.type`, and from `event.data.object` the checkout
metadata (`api_key_id`, and the value of `int(metadata.get("credits", 0))`),
the `customer` and the `subscription` references.  Absent metadata keys are
`none`; `credits` already carries the parsed default `0`. -/
structure SEvent where
  id : String
  type : String
  api_key_id : Option String
  credits : Int
  customer : Option String
  subscription : Option String
deriving DecidableEq

/-- Outcome dictionaries returned by `stripe_service`: the `status` field
plus the data each branch attaches. -/
inductive WebhookResult where
  | duplicate (event_id : String)
  | creditsAdded (api_key_id : String) (credits : Int)
  | subscriptionCreditsAdded (api_key_id : String) (credits : Int)
  | subscriptionCancelled (api_key_id : String)
  | ignored (event_type : String)
  | skipped (reason : String)
  | keyNotFound (reason : String)
deriving DecidableEq

/-- The `status` string of the returned dictionary. -/
def WebhookResult.status : WebhookResult → String
  | .duplicate _ => "duplicate"
  | .creditsAdded _ _ => "success"
  | .subscriptionCreditsAdded _ _ => "success"
  | .subscriptionCancelled _ => "success"
  | .ignored _ => "ignored"
  | .skipped _ => "skipped"
  | .keyNotFound _ => "error"

/-- `stripe_service.StripeService._handle_checkout_completed`.  Python
truthiness: a missing or empty `api_key_id` and a zero `credits` are falsy. -/
def StripeService.handle_checkout_completed (db : DB) (e : SEvent) :
    WebhookResult × DB :=
  if e.api_key_id.getD "" == "" || e.credits == 0 then
    (.skipped "missing metadata", db)
  else
    match APIKeyService.get_by_id db (e.api_key_id.getD "") with
    | none => (.keyNotFound ("API key not found: " ++ e.api_key_id.getD ""), db)
    | some _ =>
      (.creditsAdded (e.api_key_id.getD "") e.credits,
       (APIKeyService.add_credits db (e.api_key_id.getD "") e.credits).2)

/-- `stripe_service.StripeService._handle_invoice_paid`: a flat 1000-credit
grant for the resolved customer. -/
def StripeService.handle_invoice_paid (db : DB) (e : SEvent) :
    WebhookResult × DB :=
  if e.customer.getD "" == "" then (.skipped "no customer", db)
  else
    match APIKeyService.get_by_stripe_customer db (e.customer.getD "") with
    | none => (.skipped "customer not found", db)
    | some k =>
      (.subscriptionCreditsAdded k.key_id 1000,
       (APIKeyService.add_credits db k.key_id 1000).2)

/-- `stripe_service.StripeService._handle_subscription_deleted`. -/
def StripeService.handle_subscription_deleted (db : DB) (e : SEvent) :
    WebhookResult × DB :=
  if e.customer.getD "" == "" then (.skipped "no customer", db)
  else
    match APIKeyService.get_by_stripe_customer db (e.customer.getD "") with
    | none => (.skipped "customer not found", db)
    | some k =>
      (.subscriptionCancelled k.key_id,
       APIKeyService.update_stripe_info db k.key_id none none)

/-- `stripe_service.StripeService._process_event`: dispatch by event type. -/
def StripeService.process_event (db : DB) (e : SEvent) : WebhookResult × DB :=
  if e.type == "checkout.session.completed" then
    StripeService.handle_checkout_completed db e
  else if e.type == "invoice.paid" then
    StripeService.handle_invoice_paid db e
  else if e.type == "customer.subscription.deleted" then
    StripeService.handle_subscription_deleted db e
  else (.ignored e.type, db)

/-- The two failures `stripe.Webhook.construct_event` can raise. -/
inductive ConstructError where
  | invalidPayload
  | invalidSignature
deriving DecidableEq

/-- `stripe_service.StripeService.handle_webhook`.  `construct_event`
stands for `stripe.Webhook.construct_event` applied with the configured
signing secret; the raw body is a byte list.  Raises (`Except.error`) the
`ValueError` messages of the source; otherwise checks the dedup table,
processes the event, and records the dedup row. -/
def StripeService.handle_webhook
    (construct_event : List Nat → String → Except ConstructError SEvent)
    (db : DB) (payload : List Nat) (signature : String) :
    Except String (WebhookResult × DB) :=
  match construct_event payload signature with
  | .error .invalidPayload => .error "Invalid payload"
  | .error .invalidSignature => .error "Invalid signature"
  | .ok event =>
    if (db.stripe_events.find? (fun r => r.event_id == event.id)).isSome then
      .ok (.duplicate event.id, db)
    else
      .ok ((StripeService.process_event db event).1,
        { (StripeService.process_event db event).2 with
          stripe_events := (StripeService.process_event db event).2.stripe_events ++
            [{ event_id := event.id, event_type := event.type }] })

/-- `routes/billing.handle_webhook`: the HTTP layer around the service;
returns the response status code and the resulting store.  A raised
`ValueError` becomes a 400 response and the request's transaction is rolled
back (`database.get_db`), leaving the store unchanged. -/
def BillingRoute.handle_webhook
    (construct_event : List Nat → String → Except ConstructError SEvent)
    (is_configured : Bool) (db : DB) (payload : List Nat)
    (signature : String) : Nat × DB :=
  if !is_configured then (503, db)
  else
    match StripeService.handle_webhook construct_event db payload signature with
    | .ok (_, db1) => (200, db1)
    | .error _ => (400, db)

/-- `routes/documents._calculate_credits` with the two settings passed
explicitly (`credits_per_page`, `min_credits_per_document`). -/
def _calculate_credits (credits_per_page min_credits_per_document : Int)
    (pages : Int) : Int :=
  max (pages * credits_per_page) min_credits_per_document

/-- The per-source dictionary returned by the conversion backend as read by
`routes/documents.convert_from_source`: `r.get("status")` (absent key gives
`none`) and `r.get("pages", 1)`. -/
structure DocResult where
  source : String
  status : Option String
  pages : Option Int
deriving DecidableEq

/-- `sum(r.get("pages", 1) for r in results if r.get("status") == "success")`. -/
def totalPagesOf (results : List DocResult) : Int :=
  (results.filter (fun r => r.status == some "success")).foldl
    (fun acc r => acc + r.pages.getD 1) 0

/-- `len([r for r in results if r.get("status") == "success"])`. -/
def totalDocumentsOf (results : List DocResult) : Int :=
  ((results.filter (fun r => r.status == some "success")).length : Int)

/-- The charge computed by `convert_from_source` for a batch. -/
def batchCharge (credits_per_page min_credits_per_document : Int)
    (results : List DocResult) : Int :=
  _calculate_credits credits_per_page min_credits_per_document
    (totalPagesOf results)

/-- `auth.get_current_api_key`: the required-authentication dependency.
`credentials` is the bearer token when the header is present.  Returns
either the `HTTPException` status code and detail, or the resolved key and
raw token, together with the store (``validate_key`` updates `last_used`
before the credits gate runs). -/
def get_current_api_key (hash_key : String → String) (db : DB)
    (credentials : Option String) (now : Nat) :
    Except (Nat × String) (APIKey × String) × DB :=
  match credentials with
  | none => (.error (401, "API key required"), db)
  | some raw_key =>
    match APIKeyService.validate_key hash_key db raw_key now with
    | (none, db1) => (.error (401, "Invalid or inactive API key"), db1)
    | (some api_key, db1) =>
      if api_key.credits ≤ 0 then
        (.error (402,
          "Insufficient credits. Please add more credits to continue."), db1)
      else (.ok (api_key, raw_key), db1)

/-- The body of `routes/keys.get_current_usage` (`GET /v1/keys/me`). -/
structure APIKeyUsage where
  key_id : String
  name : String
  tier : String
  credits_remaining : Int
  credits_used : Int
  documents_processed : Int
  pages_processed : Int
  last_used : Option Nat
deriving DecidableEq

/-- `routes/keys.get_current_usage`: a pure read behind the required
authentication dependency; no deduction is performed. -/
def KeysRoute.get_current_usage (hash_key : String → String) (db : DB)
    (credentials : Option String) (now : Nat) :
    Except (Nat × String) APIKeyUsage × DB :=
  match get_current_api_key hash_key db credentials now with
  | (.error e, db1) => (.error e, db1)
  | (.ok (k, _), db1) =>
    (.ok { key_id := k.key_id
           name := k.name
           tier := k.tier
           credits_remaining := k.credits
           credits_used := k.credits_used
           documents_processed := k.documents_processed
           pages_processed := k.pages_processed
           last_used := k.last_used }, db1)

/-- The pydantic constraints of `schemas.APIKeyCreate` that FastAPI checks
before the route body runs: `name` has `min_length=1, max_length=100` and
`credits` has `ge=0`. -/
def APIKeyCreate.valid (name : String) (credits : Int) : Bool :=
  decide (1 ≤ name.length) && decide (name.length ≤ 100) && decide (0 ≤ credits)

/-- `POST /v1/keys` as served: request-body validation (a pydantic
`ValidationError`, surfaced as a 422, rejects the request before
`routes/keys.create_key` runs), then `APIKeyService.create_key`. -/
def KeysRoute.create_key (hash_key : String → String) (db : DB) (id : Int)
    (key_id key_secret : String) (name : String) (tier : String)
    (credits : Int) : Except String (APIKey × String) × DB :=
  if APIKeyCreate.valid name credits then
    let ((api_key, full_key), db1) :=
      APIKeyService.create_key hash_key db id key_id key_secret name tier
        credits none
    (.ok (api_key, full_key), db1)
  else (.error "ValidationError", db)

/-- One concurrent `TryDeduct` request in flight: its deduction arguments,
the `APIKey` row snapshot its session has loaded (if it has reached that
step), and its reported outcome (if finished). -/
structure DeductTask where
  amount : Int
  documents : Int
  pages : Int
  snapshot : Option APIKey
  outcome : Option Bool
deriving DecidableEq

/-- Shared state of the concurrent execution: the single account row as
stored, plus each request's local session state. -/
structure ConcState where
  row : APIKey
  tasks : List DeductTask
deriving DecidableEq

/-- The two database round-trips of one request, as the source performs
them: `load` is the session's `SELECT` of the account row (no lock is
taken — the source issues no `FOR UPDATE` and no compare-and-swap), and
`commit` runs `APIKey.deduct_credits` on the session's in-memory snapshot
and, on success, writes the resulting row back (last write wins). -/
inductive ConcStep where
  | load (i : Nat)
  | commit (i : Nat) (now : Nat)
deriving DecidableEq

/-- Execute one step of one request against the shared state. -/
def ConcState.step (s : ConcState) : ConcStep → ConcState
  | .load i =>
    match s.tasks[i]? with
    | none => s
    | some t => { s with tasks := s.tasks.set i { t with snapshot := some s.row } }
  | .commit i now =>
    match s.tasks[i]? with
    | none => s
    | some t =>
      match t.snapshot with
      | none => s
      | some k =>
        match APIKey.deduct_credits k t.amount t.documents t.pages now with
        | (false, _) =>
          { s with tasks := s.tasks.set i { t with outcome := some false } }
        | (true, k1) =>
          { row := k1, tasks := s.tasks.set i { t with outcome := some true } }

/-- Run an interleaving (a schedule of steps). -/
def ConcState.run (s : ConcState) (schedule : List ConcStep) : ConcState :=
  schedule.foldl ConcState.step s

/-! ### Helper lemmas -/

theorem find?_map_of_pred (p : α → Bool) (g : α → α)
    (hp : ∀ x, p (g x) = p x) :
    ∀ l : List α, (l.map g).find? p = (l.find? p).map g := by
  intro l
  induction l with
  | nil => rfl
  | cons x xs ih =>
    by_cases hx : p x = true
    · rw [List.map_cons, List.find?_cons_of_pos _ (by rw [hp]; exact hx),
        List.find?_cons_of_pos _ hx, Option.map_some']
    · have hx' : p x = false := by simpa using hx
      rw [List.map_cons, List.find?_cons_of_neg _ (by rw [hp, hx']; simp),
        List.find?_cons_of_neg _ (by rw [hx']; simp), ih]

theorem find?_append_singleton_isSome (p : α → Bool) (l : List α) (x : α)
    (hx : p x = true) : ((l ++ [x]).find? p).isSome := by
  induction l with
  | nil => simp [List.find?_cons_of_pos _ hx]
  | cons y ys ih =>
    by_cases hy : p y = true
    · simp [List.find?_cons_of_pos _ hy]
    · have hy' : p y = false := by simpa using hy
      rw [List.cons_append, List.find?_cons_of_neg _ (by rw [hy']; simp)]
      exact ih

theorem get_by_id_updateKey (db : DB) (key_id : String) (f : APIKey → APIKey)
    (hf : ∀ x, (f x).key_id = x.key_id) (k : APIKey)
    (hk : APIKeyService.get_by_id db key_id = some k) :
    APIKeyService.get_by_id (db.updateKey key_id f) key_id = some (f k) := by
  have hk' : db.api_keys.find? (fun x => x.key_id == key_id) = some k := hk
  have hpk0 : (fun x : APIKey => x.key_id == key_id) k = true :=
    @List.find?_some APIKey (fun x => x.key_id == key_id) k db.api_keys hk'
  have hpk : (k.key_id == key_id) = true := hpk0
  have hp : ∀ x : APIKey,
      ((if x.key_id == key_id then f x else x).key_id == key_id) =
        (x.key_id == key_id) := by
    intro x
    by_cases hx : (x.key_id == key_id) = true
    · simp [hx, hf]
    · simp [hx]
  show (db.api_keys.map
      (fun x => if x.key_id == key_id then f x else x)).find?
      (fun x => x.key_id == key_id) = some (f k)
  rw [find?_map_of_pred _ _ hp, hk', Option.map_some', if_pos hpk]

theorem add_credits_snd_stripe_events (db : DB) (key_id : String)
    (credits : Int) :
    ((APIKeyService.add_credits db key_id credits).2).stripe_events =
      db.stripe_events := by
  unfold APIKeyService.add_credits
  split <;> rfl

theorem add_credits_snd_usage_records (db : DB) (key_id : String)
    (credits : Int) :
    ((APIKeyService.add_credits db key_id credits).2).usage_records =
      db.usage_records := by
  unfold APIKeyService.add_credits
  split <;> rfl

theorem process_event_stripe_events (db : DB) (e : SEvent) :
    (StripeService.process_event db e).2.stripe_events = db.stripe_events := by
  unfold StripeService.process_event StripeService.handle_checkout_completed
    StripeService.handle_invoice_paid StripeService.handle_subscription_deleted
  split
  · split
    · rfl
    · split
      · rfl
      · exact add_credits_snd_stripe_events ..
  · split
    · split
      · rfl
      · split
        · rfl
        · exact add_credits_snd_stripe_events ..
    · split
      · split
        · rfl
        · split <;> rfl
      · rfl

theorem process_event_usage_records (db : DB) (e : SEvent) :
    (StripeService.process_event db e).2.usage_records = db.usage_records := by
  unfold StripeService.process_event StripeService.handle_checkout_completed
    StripeService.handle_invoice_paid StripeService.handle_subscription_deleted
  split
  · split
    · rfl
    · split
      · rfl
      · exact add_credits_snd_usage_records ..
  · split
    · split
      · rfl
      · split
        · rfl
        · exact add_credits_snd_usage_records ..
    · split
      · split
        · rfl
        · split <;> rfl
      · rfl

/-! ### Claims -/

/-- C1: `TryDeduct` (`APIKey.deduct_credits` via
`APIKeyService.deduct_credits`) succeeds exactly when the balance covers
the amount: on success it decrements `credits` by the amount, increments
`credits_used` / `documents_processed` / `pages_processed` by the supplied
deltas, sets `last_used`, and appends exactly the one usage row; on
insufficient credits it reports failure and leaves the account and the
usage-record store exactly unchanged (rejected, not clamped). -/
theorem c1_try_deduct_spec (s : KeySession) (c d p pt : Int)
    (rid ep : String) (now : Nat) :
    (c ≤ s.key.credits →
      APIKeyService.deduct_credits s c d p rid ep pt now =
        (true,
          { key :=
              { s.key with
                credits := s.key.credits - c
                credits_used := s.key.credits_used + c
                documents_processed := s.key.documents_processed + d
                pages_processed := s.key.pages_processed + p
                last_used := some now }
            usage_records := s.usage_records ++
              [{ api_key_id := s.key.id
                 request_id := rid
                 endpoint := ep
                 documents := d
                 pages := p
                 credits := c
                 processing_time_ms := pt
                 status := "success" }] })) ∧
    (s.key.credits < c →
      APIKeyService.deduct_credits s c d p rid ep pt now = (false, s)) := by
  constructor
  · intro h
    have hlt : ¬ s.key.credits < c := not_lt.mpr h
    simp [APIKeyService.deduct_credits, APIKey.deduct_credits, hlt]
  · intro h
    simp [APIKeyService.deduct_credits, APIKey.deduct_credits, h]

/-- C1 witness: the concrete scenario of the claim — balance 100, a
deduction of 30 (10 pages) succeeds leaving 70 with one usage row of 30
credits; a further deduction of 80 fails, leaving the balance at 70 and
adding no usage row. -/
theorem c1_try_deduct_spec_witness :
    APIKeyService.deduct_credits
        ⟨⟨1, "dk_demo", "h0", "Demo", "starter", 100, 0, 0, 0, true, none,
          none, none⟩, []⟩ 30 1 10 "r1" "/v1/convert/source" 5 7 =
      (true,
        ⟨⟨1, "dk_demo", "h0", "Demo", "starter", 70, 30, 1, 10, true, some 7,
          none, none⟩,
         [⟨1, "r1", "/v1/convert/source", 1, 10, 30, 5, "success"⟩]⟩) ∧
    APIKeyService.deduct_credits
        ⟨⟨1, "dk_demo", "h0", "Demo", "starter", 70, 30, 1, 10, true, some 7,
          none, none⟩,
         [⟨1, "r1", "/v1/convert/source", 1, 10, 30, 5, "success"⟩]⟩
        80 1 10 "r2" "/v1/convert/source" 5 8 =
      (false,
        ⟨⟨1, "dk_demo", "h0", "Demo", "starter", 70, 30, 1, 10, true, some 7,
          none, none⟩,
         [⟨1, "r1", "/v1/convert/source", 1, 10, 30, 5, "success"⟩]⟩) := by
  constructor
  · exact (c1_try_deduct_spec
      ⟨⟨1, "dk_demo", "h0", "Demo", "starter", 100, 0, 0, 0, true, none,
        none, none⟩, []⟩ 30 1 10 5 "r1" "/v1/convert/source" 7).1 (by decide)
  · exact (c1_try_deduct_spec
      ⟨⟨1, "dk_demo", "h0", "Demo", "starter", 70, 30, 1, 10, true, some 7,
        none, none⟩,
       [⟨1, "r1", "/v1/convert/source", 1, 10, 30, 5, "success"⟩]⟩
      80 1 10 5 "r2" "/v1/convert/source" 8).2 (by decide)

/-- C4: usage-event accounting is exactly-once — a deduction succeeds
exactly when the balance covers it; a successful deduction appends exactly
one usage row whose `credits` equals the amount removed from the balance; a
failed deduction changes nothing; and the webhook pipeline (the only other
mutating entry point into the store) never creates a usage row. -/
theorem c4_usage_exactly_once (s : KeySession) (c d p pt : Int)
    (rid ep : String) (now : Nat) :
    ((APIKeyService.deduct_credits s c d p rid ep pt now).1 = true ↔
      c ≤ s.key.credits) ∧
    ((APIKeyService.deduct_credits s c d p rid ep pt now).1 = true →
      (APIKeyService.deduct_credits s c d p rid ep pt now).2.usage_records =
        s.usage_records ++
          [{ api_key_id := s.key.id
             request_id := rid
             endpoint := ep
             documents := d
             pages := p
             credits := c
             processing_time_ms := pt
             status := "success" }] ∧
      (APIKeyService.deduct_credits s c d p rid ep pt now).2.key.credits =
        s.key.credits - c) ∧
    ((APIKeyService.deduct_credits s c d p rid ep pt now).1 = false →
      (APIKeyService.deduct_credits s c d p rid ep pt now).2 = s) ∧
    (∀ (construct_event : List Nat → String → Except ConstructError SEvent)
        (db : DB) (payload : List Nat) (sig : String) (r : WebhookResult)
        (db' : DB),
      StripeService.handle_webhook construct_event db payload sig =
        .ok (r, db') →
      db'.usage_records = db.usage_records) := by
  refine ⟨?_, ?_, ?_, ?_⟩
  · by_cases h : s.key.credits < c
    · simp [APIKeyService.deduct_credits, APIKey.deduct_credits, h]
    · simp [APIKeyService.deduct_credits, APIKey.deduct_credits, h]
      omega
  · intro h1
    by_cases h : s.key.credits < c
    · simp [APIKeyService.deduct_credits, APIKey.deduct_credits, h] at h1
    · constructor <;>
        simp [APIKeyService.deduct_credits, APIKey.deduct_credits, h]
  · intro h1
    by_cases h : s.key.credits < c
    · simp [APIKeyService.deduct_credits, APIKey.deduct_credits, h]
    · simp [APIKeyService.deduct_credits, APIKey.deduct_credits, h] at h1
  · intro ce db payload sig r db' h
    unfold StripeService.handle_webhook at h
    cases hce : ce payload sig with
    | error err =>
      rw [hce] at h
      cases err <;> simp at h
    | ok e =>
      rw [hce] at h
      simp only at h
      by_cases hdup :
          (db.stripe_events.find? (fun rr => rr.event_id == e.id)).isSome
      · rw [if_pos hdup] at h
        simp only [Except.ok.injEq, Prod.mk.injEq] at h
        rw [← h.2]
      · rw [if_neg hdup] at h
        simp only [Except.ok.injEq, Prod.mk.injEq] at h
        rw [← h.2]
        exact process_event_usage_records db e

/-- C4 witness: concrete success, failure and webhook cases. -/
theorem c4_usage_exactly_once_witness :
    (APIKeyService.deduct_credits
        ⟨⟨1, "dk_a", "h1", "A", "starter", 100, 0, 0, 0, true, none, none,
          none⟩, []⟩ 40 2 20 "r" "e" 3 9).2.usage_records =
      [⟨1, "r", "e", 2, 20, 40, 3, "success"⟩] ∧
    (APIKeyService.deduct_credits
        ⟨⟨1, "dk_a", "h1", "A", "starter", 100, 0, 0, 0, true, none, none,
          none⟩, []⟩ 400 2 20 "r" "e" 3 9).2 =
      ⟨⟨1, "dk_a", "h1", "A", "starter", 100, 0, 0, 0, true, none, none,
        none⟩, []⟩ ∧
    (DB.mk [] [] [⟨"evt1", "foo"⟩]).usage_records =
      (DB.mk [] [] ([] : List StripeEvent)).usage_records := by
  refine ⟨?_, ?_, ?_⟩
  · exact ((c4_usage_exactly_once
      ⟨⟨1, "dk_a", "h1", "A", "starter", 100, 0, 0, 0, true, none, none,
        none⟩, []⟩ 40 2 20 3 "r" "e" 9).2.1 (by decide)).1
  · exact (c4_usage_exactly_once
      ⟨⟨1, "dk_a", "h1", "A", "starter", 100, 0, 0, 0, true, none, none,
        none⟩, []⟩ 400 2 20 3 "r" "e" 9).2.2.1 (by decide)
  · exact (c4_usage_exactly_once
      ⟨⟨1, "dk_a", "h1", "A", "starter", 100, 0, 0, 0, true, none, none,
        none⟩, []⟩ 400 2 20 3 "r" "e" 9).2.2.2
      (fun _ _ => .ok ⟨"evt1", "foo", none, 0, none, none⟩)
      (DB.mk [] [] []) [0] "sig" (.ignored "foo")
      (DB.mk [] [] [⟨"evt1", "foo"⟩]) (by rfl)

/-- C5: the charge is `max(pages * credits_per_page,
min_credits_per_document)`, where `pages` sums page counts over only the
successfully processed documents of the batch — a failed document
contributes neither pages nor to the successful-document count;
`charge(0) = minimum` (for a non-negative minimum) and
`charge(50)` with rate 1 and minimum 1 is 50. -/
theorem c5_pricing_rule (cpp minc : Int) (hm : 0 ≤ minc)
    (rs ts : List DocResult) (f : DocResult)
    (hf : f.status ≠ some "success") :
    _calculate_credits cpp minc 0 = minc ∧
    _calculate_credits 1 1 50 = 50 ∧
    totalPagesOf (rs ++ f :: ts) = totalPagesOf (rs ++ ts) ∧
    totalDocumentsOf (rs ++ f :: ts) = totalDocumentsOf (rs ++ ts) ∧
    batchCharge cpp minc (rs ++ f :: ts) = batchCharge cpp minc (rs ++ ts) := by
  have hfb : (f.status == some "success") = false := by
    simpa using hf
  have hp : totalPagesOf (rs ++ f :: ts) = totalPagesOf (rs ++ ts) := by
    simp [totalPagesOf, List.filter_append, List.filter_cons, hfb]
  refine ⟨?_, by decide, hp, ?_, ?_⟩
  · simp [_calculate_credits, max_eq_right hm]
  · simp [totalDocumentsOf, List.filter_append, List.filter_cons, hfb]
  · simp [batchCharge, hp]

/-- C5 witness: a batch of 3 sources, one failed — the charge equals the
charge over the 2 successful page counts, and the concrete charges. -/
theorem c5_pricing_rule_witness :
    _calculate_credits 1 1 0 = 1 ∧
    _calculate_credits 1 1 50 = 50 ∧
    batchCharge 1 1
        [⟨"a", some "success", some 30⟩, ⟨"b", some "error", some 7⟩,
         ⟨"c", some "success", some 20⟩] =
      batchCharge 1 1
        [⟨"a", some "success", some 30⟩, ⟨"c", some "success", some 20⟩] := by
  have h := c5_pricing_rule 1 1 (by decide)
    [⟨"a", some "success", some 30⟩] [⟨"c", some "success", some 20⟩]
    ⟨"b", some "error", some 7⟩ (by decide)
  exact ⟨h.1, h.2.1, h.2.2.2.2⟩

/-- C6: when signature verification fails, `handle_webhook` raises
`ValueError("Invalid signature")` before any event dispatch — the service
performs no side effect (no dedup row, no grant, no account change), and
the HTTP route surfaces a 400 client error with the store unchanged. -/
theorem c6_invalid_signature
    (construct_event : List Nat → String → Except ConstructError SEvent)
    (db : DB) (payload : List Nat) (sig : String)
    (h : construct_event payload sig = .error .invalidSignature) :
    StripeService.handle_webhook construct_event db payload sig =
      .error "Invalid signature" ∧
    BillingRoute.handle_webhook construct_event true db payload sig =
      (400, db) := by
  have h1 : StripeService.handle_webhook construct_event db payload sig =
      .error "Invalid signature" := by
    unfold StripeService.handle_webhook
    rw [h]
  refine ⟨h1, ?_⟩
  simp [BillingRoute.handle_webhook, h1]

/-- C6 witness: a concrete store and a verifier that rejects the payload. -/
theorem c6_invalid_signature_witness :
    StripeService.handle_webhook (fun _ _ => .error .invalidSignature)
        (DB.mk [⟨1, "dk_w", "hw", "W", "starter", 10, 0, 0, 0, true, none,
          none, none⟩] [] []) [1, 2] "bad" =
      .error "Invalid signature" ∧
    BillingRoute.handle_webhook (fun _ _ => .error .invalidSignature) true
        (DB.mk [⟨1, "dk_w", "hw", "W", "starter", 10, 0, 0, 0, true, none,
          none, none⟩] [] []) [1, 2] "bad" =
      (400,
        DB.mk [⟨1, "dk_w", "hw", "W", "starter", 10, 0, 0, 0, true, none,
          none, none⟩] [] []) :=
  c6_invalid_signature (fun _ _ => .error .invalidSignature)
    (DB.mk [⟨1, "dk_w", "hw", "W", "starter", 10, 0, 0, 0, true, none, none,
      none⟩] [] []) [1, 2] "bad" rfl

/-- C9: key creation fails with a `ValidationError` when the supplied name
is empty or the initial credits are negative — the request is rejected by
the `APIKeyCreate` schema before the service runs, and the store is
unchanged (no account created, no key persisted). -/
theorem c9_create_key_validation (hash_key : String → String) (db : DB)
    (id : Int) (key_id key_secret : String) (name : String) (tier : String)
    (credits : Int) (h : name = "" ∨ credits < 0) :
    KeysRoute.create_key hash_key db id key_id key_secret name tier credits =
      (.error "ValidationError", db) := by
  have hv : APIKeyCreate.valid name credits = false := by
    unfold APIKeyCreate.valid
    rcases h with h | h
    · subst h
      simp
    · have h0 : ¬ (0 ≤ credits) := by omega
      simp [h0]
  unfold KeysRoute.create_key
  rw [hv]
  simp

/-- C9 witness: empty name and negative credits are both rejected with the
store untouched. -/
theorem c9_create_key_validation_witness :
    KeysRoute.create_key (fun s => s) (DB.mk [] [] []) 1 "dk_n" "sec" ""
        "starter" 100 =
      (.error "ValidationError", DB.mk [] [] []) ∧
    KeysRoute.create_key (fun s => s) (DB.mk [] [] []) 1 "dk_n" "sec" "App"
        "starter" (-5) =
      (.error "ValidationError", DB.mk [] [] []) :=
  ⟨c9_create_key_validation (fun s => s) (DB.mk [] [] []) 1 "dk_n" "sec" ""
      "starter" 100 (Or.inl rfl),
   c9_create_key_validation (fun s => s) (DB.mk [] [] []) 1 "dk_n" "sec"
      "App" "starter" (-5) (Or.inr (by decide))⟩

/-- C10 (implicit): the required-authentication dependency rejects every
request whose credential resolves to a valid, active account with
`credits <= 0` with a 402 payment-required error, so such an account cannot
invoke an authenticated operation at all — shown on the pure read
`GET /v1/keys/me`, which charges nothing yet still returns the 402. -/
theorem c10_zero_balance_rejected (hash_key : String → String) (db : DB)
    (raw : String) (k : APIKey) (now : Nat)
    (hk : APIKeyService.get_by_full_key hash_key db raw = some k)
    (hc : k.credits ≤ 0) :
    (get_current_api_key hash_key db (some raw) now).1 =
      .error (402,
        "Insufficient credits. Please add more credits to continue.") ∧
    (KeysRoute.get_current_usage hash_key db (some raw) now).1 =
      .error (402,
        "Insufficient credits. Please add more credits to continue.") := by
  have hpair : get_current_api_key hash_key db (some raw) now =
      (.error (402,
        "Insufficient credits. Please add more credits to continue."),
       db.updateKey k.key_id (fun x => { x with last_used := some now })) := by
    have hval : APIKeyService.validate_key hash_key db raw now =
        (some { k with last_used := some now },
         db.updateKey k.key_id (fun x => { x with last_used := some now })) := by
      unfold APIKeyService.validate_key
      rw [hk]
    have hc2 : ({ k with last_used := some now } : APIKey).credits ≤ 0 := hc
    simp only [get_current_api_key]
    rw [hval]
    dsimp only
    rw [if_pos hc2]
  refine ⟨by rw [hpair], ?_⟩
  unfold KeysRoute.get_current_usage
  rw [hpair]

/-- C10 witness: an active account with 0 credits and a matching
credential is turned away with 402 on its own usage read. -/
theorem c10_zero_balance_rejected_witness :
    (KeysRoute.get_current_usage (fun s => s)
        (DB.mk [⟨1, "dk_z", "dk_z_sec", "Z", "starter", 0, 40, 3, 9, true,
          none, none, none⟩] [] []) (some "dk_z_sec") 6).1 =
      .error (402,
        "Insufficient credits. Please add more credits to continue.") :=
  (c10_zero_balance_rejected (fun s => s)
    (DB.mk [⟨1, "dk_z", "dk_z_sec", "Z", "starter", 0, 40, 3, 9, true, none,
      none, none⟩] [] []) "dk_z_sec"
    ⟨1, "dk_z", "dk_z_sec", "Z", "starter", 0, 40, 3, 9, true, none, none,
      none⟩ 6 (by decide) (by decide)).2

/-- An empty store, for the issue-then-validate round trip. -/
def emptyDB : DB := ⟨[], [], []⟩

/-- The row built by `APIKey.create_new` (the account returned by Issue). -/
def issuedKey (hash_key : String → String) (id : Int)
    (key_id key_secret name tier : String) (credits : Int) : APIKey :=
  (APIKey.create_new hash_key id key_id key_secret name tier credits).1

/-- C8: credential round trip.  Issue returns the plaintext
`key_id ++ "_" ++ key_secret` and persists only its digest; immediately
afterwards `Validate` of that exact plaintext returns the originating
account (with `last_used` set); `Validate` of any altered plaintext
returns none (given the digest function is injective, the collision-freeness
assumed of SHA-256); and after deactivation `Validate` of the original,
correct credential also returns none. -/
theorem c8_credential_roundtrip (hash_key : String → String)
    (hinj : Function.Injective hash_key) (id : Int)
    (key_id key_secret name tier : String) (credits : Int) (now : Nat)
    (altered : String) (haltered : altered ≠ key_id ++ "_" ++ key_secret) :
    APIKeyService.create_key hash_key emptyDB id key_id key_secret name tier
        credits none =
      ((issuedKey hash_key id key_id key_secret name tier credits,
        key_id ++ "_" ++ key_secret),
       DB.mk [issuedKey hash_key id key_id key_secret name tier credits]
         [] []) ∧
    (APIKeyService.validate_key hash_key
        (DB.mk [issuedKey hash_key id key_id key_secret name tier credits]
          [] []) (key_id ++ "_" ++ key_secret) now).1 =
      some { issuedKey hash_key id key_id key_secret name tier credits with
             last_used := some now } ∧
    (APIKeyService.validate_key hash_key
        (DB.mk [issuedKey hash_key id key_id key_secret name tier credits]
          [] []) altered now).1 = none ∧
    (APIKeyService.validate_key hash_key
        (APIKeyService.deactivate_key
          (DB.mk [issuedKey hash_key id key_id key_secret name tier credits]
            [] []) key_id).2 (key_id ++ "_" ++ key_secret) now).1 = none := by
  have h2 : APIKeyService.get_by_full_key hash_key
      (DB.mk [issuedKey hash_key id key_id key_secret name tier credits] [] [])
      (key_id ++ "_" ++ key_secret) =
      some (issuedKey hash_key id key_id key_secret name tier credits) := by
    unfold APIKeyService.get_by_full_key
    simp [issuedKey, APIKey.create_new, List.find?]
  have hne : ((issuedKey hash_key id key_id key_secret name tier
      credits).key_hash == hash_key altered) = false := by
    simp only [issuedKey, APIKey.create_new, beq_eq_false_iff_ne, ne_eq]
    intro hcontra
    exact haltered (hinj hcontra).symm
  have h3 : APIKeyService.get_by_full_key hash_key
      (DB.mk [issuedKey hash_key id key_id key_secret name tier credits] [] [])
      altered = none := by
    unfold APIKeyService.get_by_full_key
    simp [List.find?, hne]
  have h4 : (APIKeyService.deactivate_key
      (DB.mk [issuedKey hash_key id key_id key_secret name tier credits] [] [])
      key_id).2 =
      DB.mk [{ issuedKey hash_key id key_id key_secret name tier credits with
               is_active := false }] [] [] := by
    simp [APIKeyService.deactivate_key, APIKeyService.get_by_id, DB.updateKey,
      List.find?, issuedKey, APIKey.create_new]
  have h5 : APIKeyService.get_by_full_key hash_key
      (DB.mk [{ issuedKey hash_key id key_id key_secret name tier credits with
                is_active := false }] [] [])
      (key_id ++ "_" ++ key_secret) = none := by
    unfold APIKeyService.get_by_full_key
    simp [List.find?, issuedKey, APIKey.create_new]
  refine ⟨rfl, ?_, ?_, ?_⟩
  · unfold APIKeyService.validate_key
    rw [h2]
  · unfold APIKeyService.validate_key
    rw [h3]
  · rw [h4]
    unfold APIKeyService.validate_key
    rw [h5]

/-- C8 witness: identity digest (injective), a concrete issued key, a
one-character alteration of the secret, and deactivation. -/
theorem c8_credential_roundtrip_witness :
    (APIKeyService.validate_key (fun s => s)
        (DB.mk [issuedKey (fun s => s) 1 "dk_x" "abc" "Demo" "starter" 100]
          [] []) ("dk_x" ++ "_" ++ "abc") 5).1 =
      some { issuedKey (fun s => s) 1 "dk_x" "abc" "Demo" "starter" 100 with
             last_used := some 5 } ∧
    (APIKeyService.validate_key (fun s => s)
        (DB.mk [issuedKey (fun s => s) 1 "dk_x" "abc" "Demo" "starter" 100]
          [] []) "dk_x_abd" 5).1 = none ∧
    (APIKeyService.validate_key (fun s => s)
        (APIKeyService.deactivate_key
          (DB.mk [issuedKey (fun s => s) 1 "dk_x" "abc" "Demo" "starter" 100]
            [] []) "dk_x").2 ("dk_x" ++ "_" ++ "abc") 5).1 = none := by
  have h := c8_credential_roundtrip (fun s => s) (fun a b hh => hh) 1 "dk_x"
    "abc" "Demo" "starter" 100 5 "dk_x_abd" (by decide)
  exact ⟨h.2.1, h.2.2.1, h.2.2.2⟩

/-- C2: webhook processing is idempotent per event identifier.  For a
delivery that passes signature verification and is not reported
`duplicate`, the dedup row for the event identifier is persisted in the
resulting store whatever the outcome (success, ignored, skipped, or even
the key-not-found error); redelivering the same event against the
resulting store returns `duplicate` and leaves the store — hence every
balance — unchanged; and a first delivery of a valid checkout event
applies its grant exactly once. -/
theorem c2_webhook_idempotent
    (construct_event : List Nat → String → Except ConstructError SEvent)
    (db : DB) (payload : List Nat) (sig : String) (e : SEvent)
    (r : WebhookResult) (db' : DB)
    (hce : construct_event payload sig = .ok e)
    (h : StripeService.handle_webhook construct_event db payload sig =
      .ok (r, db'))
    (hnd : ∀ eid, r ≠ .duplicate eid) :
    (∃ rec ∈ db'.stripe_events, rec.event_id = e.id) ∧
    StripeService.handle_webhook construct_event db' payload sig =
      .ok (.duplicate e.id, db') ∧
    (∀ kid k, e.type = "checkout.session.completed" →
      e.api_key_id = some kid → (kid == "") = false →
      (e.credits == 0) = false →
      APIKeyService.get_by_id db kid = some k →
      r = .creditsAdded kid e.credits ∧
      APIKeyService.get_by_id db' kid = some (k.add_credits e.credits)) := by
  unfold StripeService.handle_webhook at h
  rw [hce] at h
  simp only at h
  by_cases hdup :
      (db.stripe_events.find? (fun rr => rr.event_id == e.id)).isSome
  · rw [if_pos hdup] at h
    simp only [Except.ok.injEq, Prod.mk.injEq] at h
    exact absurd h.1.symm (hnd e.id)
  · rw [if_neg hdup] at h
    simp only [Except.ok.injEq, Prod.mk.injEq] at h
    obtain ⟨hr, hdb⟩ := h
    subst hdb
    refine ⟨⟨⟨e.id, e.type⟩, by simp, rfl⟩, ?_, ?_⟩
    · unfold StripeService.handle_webhook
      rw [hce]
      simp only
      rw [if_pos (find?_append_singleton_isSome
        (fun rr => rr.event_id == e.id)
        (StripeService.process_event db e).2.stripe_events
        ⟨e.id, e.type⟩ (by simp))]
    · intro kid k htype hapi hkid hcred hget
      have ht : (e.type == "checkout.session.completed") = true := by
        simp [htype]
      have hac : (APIKeyService.add_credits db kid e.credits).2 =
          db.updateKey kid (·.add_credits e.credits) := by
        unfold APIKeyService.add_credits
        rw [hget]
      have hpe : StripeService.process_event db e =
          (.creditsAdded kid e.credits,
           db.updateKey kid (·.add_credits e.credits)) := by
        unfold StripeService.process_event
        rw [if_pos ht]
        unfold StripeService.handle_checkout_completed
        rw [hapi]
        simp [hkid, hcred, hget, hac]
      constructor
      · rw [← hr, hpe]
      · have hproj : APIKeyService.get_by_id
            ({ (StripeService.process_event db e).2 with
               stripe_events :=
                 (StripeService.process_event db e).2.stripe_events ++
                   [⟨e.id, e.type⟩] }) kid =
            APIKeyService.get_by_id (StripeService.process_event db e).2
              kid := rfl
        rw [hproj, hpe]
        exact get_by_id_updateKey db kid (·.add_credits e.credits)
          (fun x => rfl) k hget

/-- C2 witness: a signed checkout event `evt_123` granting 500 credits to
an account at balance 70 — the first delivery raises the balance to 570
and stores the dedup row; the redelivery returns `duplicate` with the
store unchanged. -/
theorem c2_webhook_idempotent_witness :
    StripeService.handle_webhook
        (fun _ _ => .ok ⟨"evt_123", "checkout.session.completed",
          some "dk_c", 500, none, none⟩)
        (DB.mk [⟨1, "dk_c", "hc", "C", "starter", 570, 0, 0, 0, true, none,
          none, none⟩] [] [⟨"evt_123", "checkout.session.completed"⟩])
        [7] "sig" =
      .ok (.duplicate "evt_123",
        DB.mk [⟨1, "dk_c", "hc", "C", "starter", 570, 0, 0, 0, true, none,
          none, none⟩] [] [⟨"evt_123", "checkout.session.completed"⟩]) ∧
    APIKeyService.get_by_id
        (DB.mk [⟨1, "dk_c", "hc", "C", "starter", 570, 0, 0, 0, true, none,
          none, none⟩] [] [⟨"evt_123", "checkout.session.completed"⟩])
        "dk_c" =
      some (APIKey.add_credits
        ⟨1, "dk_c", "hc", "C", "starter", 70, 0, 0, 0, true, none, none,
          none⟩ 500) := by
  have h := c2_webhook_idempotent
    (fun _ _ => .ok ⟨"evt_123", "checkout.session.completed", some "dk_c",
      500, none, none⟩)
    (DB.mk [⟨1, "dk_c", "hc", "C", "starter", 70, 0, 0, 0, true, none, none,
      none⟩] [] [])
    [7] "sig"
    ⟨"evt_123", "checkout.session.completed", some "dk_c", 500, none, none⟩
    (.creditsAdded "dk_c" 500)
    (DB.mk [⟨1, "dk_c", "hc", "C", "starter", 570, 0, 0, 0, true, none, none,
      none⟩] [] [⟨"evt_123", "checkout.session.completed"⟩])
    rfl rfl (fun eid hh => WebhookResult.noConfusion hh)
  exact ⟨h.2.1,
    (h.2.2 "dk_c"
      ⟨1, "dk_c", "hc", "C", "starter", 70, 0, 0, 0, true, none, none, none⟩
      rfl rfl (by decide) (by decide) (by decide)).2⟩

/-- C3: the non-negativity invariant is violated by the code.  A signed
`checkout.session.completed` webhook whose metadata carries a negative
credits value (`int(metadata["credits"]) = -50`) passes the handler's
falsy-only guard (`not credits` rejects only zero) and is applied through
`add_credits`, driving an account with balance 10 to the committed balance
-40 < 0 — where the spec requires non-positive grant amounts to be
`skipped` and `credits >= 0` after every committed mutation. -/
theorem c3_negative_grant_breaks_invariant :
    StripeService.handle_webhook
        (fun _ _ => .ok ⟨"evt_neg", "checkout.session.completed",
          some "dk_v", -50, none, none⟩)
        (DB.mk [⟨1, "dk_v", "hv", "V", "starter", 10, 5, 2, 4, true, none,
          none, none⟩] [] []) [1] "sig" =
      .ok (.creditsAdded "dk_v" (-50),
        DB.mk [⟨1, "dk_v", "hv", "V", "starter", -40, 5, 2, 4, true, none,
          none, none⟩] [] [⟨"evt_neg", "checkout.session.completed"⟩]) ∧
    (-40 : Int) < 0 := by
  constructor
  · rfl
  · decide

/-- C7: the lost-update race the source does not prevent.  Two concurrent
deductions (30 and 80) against one account with balance 100: each session
loads the row without a lock, both snapshots show 100, both pass the
`deduct_credits` check, and both commits succeed.  The final committed
balance is 20 — the second write overwrites the first — instead of the
serialized `100 - (30 + 80)`, the two successes jointly deduct 110 > 100,
and the cumulative `credits_used` records only 80 of the 110 charged. -/
theorem c7_lost_update_race :
    ConcState.run
        ⟨⟨1, "dk_r", "hr", "R", "starter", 100, 0, 0, 0, true, none, none,
          none⟩,
         [⟨30, 1, 10, none, none⟩, ⟨80, 1, 10, none, none⟩]⟩
        [.load 0, .load 1, .commit 0 5, .commit 1 6] =
      ⟨⟨1, "dk_r", "hr", "R", "starter", 20, 80, 1, 10, true, some 6, none,
        none⟩,
       [⟨30, 1, 10,
         some ⟨1, "dk_r", "hr", "R", "starter", 100, 0, 0, 0, true, none,
           none, none⟩, some true⟩,
        ⟨80, 1, 10,
         some ⟨1, "dk_r", "hr", "R", "starter", 100, 0, 0, 0, true, none,
           none, none⟩, some true⟩]⟩ ∧
    (20 : Int) ≠ 100 - (30 + 80) ∧ (100 : Int) < 30 + 80 := by
  refine ⟨by decide, by decide, by decide⟩
